import Mathlib

set_option autoImplicit false
set_option linter.unusedVariables false

open Classical

/-!
Shallow embedding of `industrial_reconstruction/industrial_reconstruction.py`
(the frame-admission and integration controller of the
`industrial_reconstruction` ROS 2 node), together with proofs about the
claims of its specification.

Numeric conventions: numpy/float values are embedded as real numbers; images
are opaque handles (natural numbers); the external reconstruction engine
(Open3D) is represented by the record of calls made to it.
-/

/-- A 3-vector of reals (numpy array of length 3 in the source). -/
@[ext]
structure Vec3 where
  x : ℝ
  y : ℝ
  z : ℝ

def zeroV : Vec3 := ⟨0, 0, 0⟩

/-- Componentwise difference, `a - b` on numpy arrays. -/
def vsub (a b : Vec3) : Vec3 := ⟨a.x - b.x, a.y - b.y, a.z - b.z⟩

/-- Dot product of 3-vectors (`a @ b` / `np.dot`). -/
def dot3 (a b : Vec3) : ℝ := a.x * b.x + a.y * b.y + a.z * b.z

/-- Euclidean norm, `np.linalg.norm` on a 3-vector. -/
noncomputable def norm3 (v : Vec3) : ℝ :=
  Real.sqrt (v.x * v.x + v.y * v.y + v.z * v.z)

/-- Cross product of 3-vectors. -/
def vcross (a b : Vec3) : Vec3 :=
  ⟨a.y * b.z - a.z * b.y, a.z * b.x - a.x * b.z, a.x * b.y - a.y * b.x⟩

/-- `v / norm(v)`: normalisation of a 3-vector. -/
noncomputable def vnormalize (v : Vec3) : Vec3 :=
  ⟨v.x / norm3 v, v.y / norm3 v, v.z / norm3 v⟩

/-- A quaternion in pyquaternion's scalar-first `(w, x, y, z)` layout;
`prev_pose_rot` is stored in the source as the array `[w, x, y, z]`. -/
@[ext]
structure Quat where
  w : ℝ
  x : ℝ
  y : ℝ
  z : ℝ

/-- The identity quaternion `np.array([1.0, 0.0, 0.0, 0.0])`. -/
def idQuat : Quat := ⟨1, 0, 0, 0⟩

def qsub (a b : Quat) : Quat := ⟨a.w - b.w, a.x - b.x, a.y - b.y, a.z - b.z⟩

def qadd (a b : Quat) : Quat := ⟨a.w + b.w, a.x + b.x, a.y + b.y, a.z + b.z⟩

/-- Quaternion norm (pyquaternion `Quaternion.norm`). -/
noncomputable def qnorm (q : Quat) : ℝ :=
  Real.sqrt (q.w * q.w + q.x * q.x + q.y * q.y + q.z * q.z)

/-- pyquaternion `Quaternion.normalised`: `q / q.norm`. -/
noncomputable def qnormalise (q : Quat) : Quat :=
  ⟨q.w / qnorm q, q.x / qnorm q, q.y / qnorm q, q.z / qnorm q⟩

/-- pyquaternion `Quaternion.absolute_distance(q0, q1)`: the smaller of
`norm(q0.normalised - q1.normalised)` and `norm(q0.normalised + q1.normalised)`. -/
noncomputable def absolute_distance (q0 q1 : Quat) : ℝ :=
  min (qnorm (qsub (qnormalise q0) (qnormalise q1)))
      (qnorm (qadd (qnormalise q0) (qnormalise q1)))

/-- 4×4 real matrices; homogeneous rigid transforms in the source. -/
abbrev Mat4 := Matrix (Fin 4) (Fin 4) ℝ

/-- `rgb_r_quat.transformation_matrix` with the translation column then
overwritten by `rgb_t` (`reconstructCallback`, the `rgb_pose` assignments):
the rotation matrix of the normalised quaternion in the upper-left block,
the translation in the last column. -/
noncomputable def poseMat (q : Quat) (t : Vec3) : Mat4 :=
  let n := qnormalise q
  !![1 - 2*(n.y*n.y + n.z*n.z), 2*(n.x*n.y - n.w*n.z), 2*(n.x*n.z + n.w*n.y), t.x;
     2*(n.x*n.y + n.w*n.z), 1 - 2*(n.x*n.x + n.z*n.z), 2*(n.y*n.z - n.w*n.x), t.y;
     2*(n.x*n.z - n.w*n.y), 2*(n.y*n.z + n.w*n.x), 1 - 2*(n.x*n.x + n.y*n.y), t.z;
     0, 0, 0, 1]

/-- Opaque image handle (`o3d.geometry.Image`). -/
abbrev Img := ℕ

/-- The pose data carried by a `TransformStamped`, as extracted by
`transformStampedToVectors`: a translation vector and a rotation quaternion. -/
abbrev TFS := Vec3 × Quat

/-- One entry of the `sensor_data` deque:
`[o3d.geometry.Image(cv2_depth_img), o3d.geometry.Image(cv2_rgb_img), gm_tf_stamped]`. -/
abbrev SFrame := Img × Img × TFS

/-- The arguments of `o3d.geometry.RGBDImage.create_from_color_and_depth
(color, depth, depth_scale, depth_trunc, convert_rgb_to_intensity)`. -/
structure RGBD where
  color : Img
  depth : Img
  depth_scale : ℝ
  depth_trunc : ℝ
  convert_rgb_to_intensity : Bool

/-- One `tsdf_volume.integrate(rgbd, intrinsics, extrinsic)` record. -/
abbrev IntegRec := RGBD × Option ℕ × Mat4

/-- Calls made to the external reconstruction engine. -/
inductive EngCall where
  | integrate (r : IntegRec)
  | extractMesh
  | extractCloud

/-- The mutable fields of the `IndustrialReconstruction` node that the
control logic reads or writes.  The TSDF volume is represented by the list
of integrations it has received (`none` before the first Start).
`started` is a ghost flag recording that at least one Start was performed;
it is set by `startReconstructionCallback` and read by no operation. -/
@[ext]
structure IRState where
  tsdf_volume : Option (List IntegRec)
  intrinsics : Option ℕ
  crop_mesh : Bool
  crop_min : Vec3
  crop_max : Vec3
  tracking_frame : String
  relative_frame : String
  translation_distance : ℝ
  rotational_distance : ℝ
  depth_scale : ℝ
  depth_trunc : ℝ
  convert_rgb_to_intensity : Bool
  sensor_data : List SFrame
  color_images : List Img
  depth_images : List Img
  rgb_poses : List Mat4
  prev_pose_rot : Quat
  prev_pose_tran : Vec3
  tsdf_integration_data : List (Img × Img × Mat4)
  integration_done : Bool
  live_integration : Bool
  record : Bool
  paused : Bool
  frame_count : ℕ
  processed_frame_count : ℕ
  reconstructed_frame_count : ℕ
  started : Bool

/-- The state established by `IndustrialReconstruction.__init__`. -/
noncomputable def initState : IRState where
  tsdf_volume := none
  intrinsics := none
  crop_mesh := false
  crop_min := zeroV
  crop_max := zeroV
  tracking_frame := ""
  relative_frame := ""
  translation_distance := 0.05
  rotational_distance := 0.01
  depth_scale := 1000.0
  depth_trunc := 3.0
  convert_rgb_to_intensity := false
  sensor_data := []
  color_images := []
  depth_images := []
  rgb_poses := []
  prev_pose_rot := idQuat
  prev_pose_tran := zeroV
  tsdf_integration_data := []
  integration_done := true
  live_integration := false
  record := false
  paused := false
  frame_count := 0
  processed_frame_count := 0
  reconstructed_frame_count := 0
  started := false

/-- A synchronized depth/color pair as delivered to `cameraCallback`,
with the outcomes of the two fallible external steps: cv_bridge decoding
(`decodeOk`) and the tf2 pose lookup (`tf`, `none` on lookup failure). -/
structure CamMsg where
  depth : Img
  color : Img
  decodeOk : Bool
  tf : Option TFS

/-- `cameraCallback`: drop the frame while paused or not recording; drop it
when decoding or pose lookup fails; otherwise append it to `sensor_data`
and increment `frame_count`. -/
def cameraCallback (s : IRState) (m : CamMsg) : IRState :=
  if s.paused || !s.record then s
  else if !m.decodeOk then s
  else
    match m.tf with
    | none => s
    | some tf =>
      { s with sensor_data := s.sensor_data ++ [(m.depth, m.color, tf)],
               frame_count := s.frame_count + 1 }

/-- The fields of a `StartReconstruction.Request` the controller reads. -/
structure StartReq where
  min_box : Vec3
  max_box : Vec3
  voxel_length : ℝ
  sdf_trunc : ℝ
  depth_scale : ℝ
  depth_trunc : ℝ
  convert_rgb_to_intensity : Bool
  tracking_frame : String
  relative_frame : String
  translation_distance : ℝ
  rotational_distance : ℝ
  live : Bool

/-- `startReconstructionCallback`: clear all buffers, reset `prev_pose` to the
identity, install the crop box when min and max bounds differ, reset the three
counters, create a fresh TSDF volume, copy the request parameters, and set
`record := true`, `paused := false`.  The response is always `success = true`. -/
noncomputable def startReconstructionCallback (s : IRState) (r : StartReq) : IRState :=
  if r.min_box.x = r.max_box.x ∧ r.min_box.y = r.max_box.y ∧ r.min_box.z = r.max_box.z then
    { s with
      color_images := [], depth_images := [], rgb_poses := [],
      sensor_data := [], tsdf_integration_data := [],
      prev_pose_rot := idQuat, prev_pose_tran := zeroV,
      crop_mesh := false,
      frame_count := 0, processed_frame_count := 0, reconstructed_frame_count := 0,
      tsdf_volume := some [],
      depth_scale := r.depth_scale, depth_trunc := r.depth_trunc,
      convert_rgb_to_intensity := r.convert_rgb_to_intensity,
      tracking_frame := r.tracking_frame, relative_frame := r.relative_frame,
      translation_distance := r.translation_distance,
      rotational_distance := r.rotational_distance,
      live_integration := r.live, record := true, paused := false,
      started := true }
  else
    { s with
      color_images := [], depth_images := [], rgb_poses := [],
      sensor_data := [], tsdf_integration_data := [],
      prev_pose_rot := idQuat, prev_pose_tran := zeroV,
      crop_mesh := true, crop_min := r.min_box, crop_max := r.max_box,
      frame_count := 0, processed_frame_count := 0, reconstructed_frame_count := 0,
      tsdf_volume := some [],
      depth_scale := r.depth_scale, depth_trunc := r.depth_trunc,
      convert_rgb_to_intensity := r.convert_rgb_to_intensity,
      tracking_frame := r.tracking_frame, relative_frame := r.relative_frame,
      translation_distance := r.translation_distance,
      rotational_distance := r.rotational_distance,
      live_integration := r.live, record := true, paused := false,
      started := true }

/-- A `std_srvs/Trigger` response.  `success` defaults to `false` in ROS 2
and the source never assigns it on the pause success path. -/
structure TriggerRes where
  success : Bool
  message : String

/-- A Python runtime error escaping a callback. -/
inductive PyErr where
  | typeError

/-- `pauseReconstructionCallback`.  When not recording: a failure response and
no state change.  When recording: the source first sets `self.paused = True`
and then evaluates `len(self.sensor_data > 0)`, which compares a `deque`
against `0` and raises `TypeError`, so no response is produced. -/
def pauseReconstructionCallback (s : IRState) : IRState × Except PyErr TriggerRes :=
  if s.record = false then
    (s, .ok ⟨false, "Cannot pause reconstruction that was never started. Doing nothing"⟩)
  else
    ({ s with paused := true }, .error .typeError)

/-- `resumeReconstructionCallback`: fails without state change when not
paused, otherwise clears `paused` and succeeds. -/
def resumeReconstructionCallback (s : IRState) : IRState × TriggerRes :=
  if s.paused = false then
    (s, ⟨false, "Cannot resume reconstruction that was not initially paused. Doing nothing"⟩)
  else
    ({ s with paused := false }, ⟨true, "Resuming reconstruction"⟩)

/-- `reconstructCallback` (one tick of the 50 Hz reconstruction timer).
`integOk` is the outcome of the fallible external
`tsdf_volume.integrate` call on the live path (`false` = it raised). -/
noncomputable def reconstructCallback (s : IRState) (integOk : Bool) : IRState :=
  if s.frame_count ≤ 30 ∨ s.sensor_data.length = 0 then s
  else
    match s.sensor_data with
    | [] => s
    | (depth_img, rgb_img, tf) :: rest =>
      if s.translation_distance ≤ norm3 (vsub tf.1 s.prev_pose_tran)
          ∨ s.rotational_distance ≤ absolute_distance s.prev_pose_rot tf.2 then
        if s.live_integration && s.tsdf_volume.isSome then
          if integOk then
            { s with
              sensor_data := rest,
              prev_pose_tran := tf.1, prev_pose_rot := tf.2,
              depth_images := s.depth_images ++ [depth_img],
              color_images := s.color_images ++ [rgb_img],
              rgb_poses := s.rgb_poses ++ [poseMat tf.2 tf.1],
              tsdf_volume := some ((s.tsdf_volume.getD []) ++
                [(⟨rgb_img, depth_img, s.depth_scale, s.depth_trunc, false⟩,
                  s.intrinsics, (poseMat tf.2 tf.1)⁻¹)]),
              integration_done := true,
              processed_frame_count := s.processed_frame_count + 1 }
          else
            { s with
              sensor_data := rest,
              prev_pose_tran := tf.1, prev_pose_rot := tf.2,
              depth_images := s.depth_images ++ [depth_img],
              color_images := s.color_images ++ [rgb_img],
              rgb_poses := s.rgb_poses ++ [poseMat tf.2 tf.1],
              integration_done := true }
        else
          { s with
            sensor_data := rest,
            prev_pose_tran := tf.1, prev_pose_rot := tf.2,
            depth_images := s.depth_images ++ [depth_img],
            color_images := s.color_images ++ [rgb_img],
            rgb_poses := s.rgb_poses ++ [poseMat tf.2 tf.1],
            tsdf_integration_data := s.tsdf_integration_data ++
              [(depth_img, rgb_img, poseMat tf.2 tf.1)],
            processed_frame_count := s.processed_frame_count + 1 }
      else
        { s with sensor_data := rest }

/-- The fields of a `StopReconstruction.Request` the control logic reads. -/
structure StopReq where
  mesh_filepath : String
  min_num_faces : ℕ
  archive_directory : String

/-- One deferred triple `[depth_img, rgb_img, rgb_pose]` turned into the
integration record of the Stop drain loop:
`create_from_color_and_depth(data[1], data[0], depth_scale, depth_trunc, False)`
integrated with extrinsic `np.linalg.inv(data[2])`. -/
noncomputable def integRecordOf (s : IRState) (d : Img × Img × Mat4) : IntegRec :=
  (⟨d.2.1, d.1, s.depth_scale, s.depth_trunc, false⟩, s.intrinsics, (d.2.2)⁻¹)

/-- `stopReconstructionCallback` after `record := false`, at the moment its
drain-barrier poll loop would exit.  When the barrier
(`integration_done and len(sensor_data) == 0`) does not hold the loop has not
exited and nothing further happens.  Otherwise: `none` TSDF volume means
Start was never called (failure response, no further work); in deferred mode
the whole `tsdf_integration_data` buffer is integrated in FIFO order; then
the triangle mesh and the point cloud are extracted.  The second component
lists the engine calls in the order they are performed. -/
noncomputable def stopFinish (s : IRState) (r : StopReq) : IRState × List EngCall :=
  if s.integration_done = true ∧ s.sensor_data.length = 0 then
    match s.tsdf_volume with
    | none => (s, [])
    | some vol =>
      if s.live_integration then
        (s, [EngCall.extractMesh, EngCall.extractCloud])
      else
        ({ s with
            tsdf_volume := some (vol ++ s.tsdf_integration_data.map (integRecordOf s)),
            tsdf_integration_data := [] },
         s.tsdf_integration_data.map (fun d => EngCall.integrate (integRecordOf s d)) ++
           [EngCall.extractMesh, EngCall.extractCloud])
  else (s, [])

/-- `self.record = False`, the first statement of `stopReconstructionCallback`. -/
def stopBegin (s : IRState) : IRState := { s with record := false }

/-- `cameraInfoCallback`: store the intrinsics. -/
def cameraInfoCallback (s : IRState) (i : ℕ) : IRState := { s with intrinsics := some i }

/-- The atomic events of the node: the two subscription callbacks, the timer
tick, the four service callbacks (Stop split into its `record := false`
prefix and the work after its drain wait). -/
inductive Ev where
  | camera (m : CamMsg)
  | reconstruct (integOk : Bool)
  | start (r : StartReq)
  | pause
  | resume
  | stopBegin
  | stopFinish (r : StopReq)
  | cameraInfo (i : ℕ)

/-- One interleaving step of the node. -/
noncomputable def step (s : IRState) : Ev → IRState
  | .camera m => cameraCallback s m
  | .reconstruct ok => reconstructCallback s ok
  | .start r => startReconstructionCallback s r
  | .pause => (pauseReconstructionCallback s).1
  | .resume => (resumeReconstructionCallback s).1
  | .stopBegin => stopBegin s
  | .stopFinish r => (stopFinish s r).1
  | .cameraInfo i => cameraInfoCallback s i

/-- Run a sequence of events. -/
noncomputable def run (s : IRState) (evs : List Ev) : IRState :=
  evs.foldl step s

/-- A triangle mesh as the post-processing pipeline sees it: vertex
positions, triangles as vertex-index triples, and the parallel
`triangle_normals` array. -/
structure OMesh where
  verts : List Vec3
  tris : List (ℕ × ℕ × ℕ)
  tri_normals : List Vec3

/-- The unit normal of a triangle: normalised cross product of its edge
vectors.  A triangle's normal depends only on its own vertices, so removing
other triangles never changes it. -/
noncomputable def triNormal (verts : List Vec3) (t : ℕ × ℕ × ℕ) : Vec3 :=
  vnormalize (vcross (vsub (verts.getD t.2.1 zeroV) (verts.getD t.1 zeroV))
                     (vsub (verts.getD t.2.2 zeroV) (verts.getD t.1 zeroV)))

/-- `mesh.compute_vertex_normals()`: (re)computes the per-triangle normals
from the current vertices and triangles. -/
noncomputable def compute_vertex_normals (m : OMesh) : OMesh :=
  { m with tri_normals := m.tris.map (triNormal m.verts) }

/-- Keep the elements whose parallel mask entry is `false`. -/
def keepByMask {α : Type _} (l : List α) (mask : List Bool) : List α :=
  ((l.zip mask).filter (fun p => !p.2)).map Prod.fst

/-- `mesh.remove_triangles_by_mask(mask)`: drop the triangles (and their
normals) whose mask entry is true; vertices are untouched. -/
def remove_triangles_by_mask (m : OMesh) (mask : List Bool) : OMesh :=
  { m with tris := keepByMask m.tris mask, tri_normals := keepByMask m.tri_normals mask }

/-- `filterNormals(mesh, direction, angle)`: recompute normals, then remove
every triangle with `dot(normal, direction) < cos(angle)`. -/
noncomputable def filterNormals (m : OMesh) (dir : Vec3) (angle : ℝ) : OMesh :=
  remove_triangles_by_mask (compute_vertex_normals m)
    ((compute_vertex_normals m).tri_normals.map
      (fun n => decide (dot3 n dir < Real.cos angle)))

/-- Number of occurrences of cluster index `a` in the per-triangle cluster
assignment: `cluster_n_triangles[a]` as returned by
`cluster_connected_triangles()`. -/
def countL (l : List ℕ) (a : ℕ) : ℕ := (l.filter (fun x => x = a)).length

/-- `triangles_to_remove = cluster_n_triangles[triangle_clusters] < min_num_faces`:
the mask marking each triangle whose cluster has strictly fewer than
`minFaces` triangles. -/
def cluster_mask (labels : List ℕ) (minFaces : ℕ) : List Bool :=
  labels.map (fun l => decide (countL labels l < minFaces))

/-- Is vertex index `i` used by some triangle? -/
def referenced (tris : List (ℕ × ℕ × ℕ)) (i : ℕ) : Bool :=
  tris.any (fun t => t.1 == i || t.2.1 == i || t.2.2 == i)

/-- The new index of a surviving vertex after unreferenced vertices are
dropped: the number of referenced indices below it. -/
def newIndex (tris : List (ℕ × ℕ × ℕ)) (i : ℕ) : ℕ :=
  ((List.range i).filter (fun j => referenced tris j)).length

/-- `mesh.remove_unreferenced_vertices()`: drop every vertex no triangle
references and reindex the triangles accordingly. -/
def remove_unreferenced_vertices (m : OMesh) : OMesh :=
  { m with
    verts := ((m.verts.enum).filter (fun p => referenced m.tris p.1)).map Prod.snd,
    tris := m.tris.map
      (fun t => (newIndex m.tris t.1, newIndex m.tris t.2.1, newIndex m.tris t.2.2)) }

/-- Lines 356-362 of `stopReconstructionCallback`: remove the triangles of
the small clusters, then the now-unreferenced vertices.  `labels` is the
per-triangle cluster assignment returned by the engine's
`cluster_connected_triangles()`. -/
def cluster_filter_step (m : OMesh) (labels : List ℕ) (minFaces : ℕ) : OMesh :=
  remove_unreferenced_vertices (remove_triangles_by_mask m (cluster_mask labels minFaces))

/-! ### Basic lemmas about the embedded operations -/

lemma norm3_nonneg (v : Vec3) : 0 ≤ norm3 v := Real.sqrt_nonneg _

/-- The gate's acceptance condition on a popped frame. -/
noncomputable def gateAccepts (s : IRState) (tf : TFS) : Prop :=
  s.translation_distance ≤ norm3 (vsub tf.1 s.prev_pose_tran)
    ∨ s.rotational_distance ≤ absolute_distance s.prev_pose_rot tf.2

lemma reconstruct_noop (s : IRState) (ok : Bool)
    (h : s.frame_count ≤ 30 ∨ s.sensor_data = []) :
    reconstructCallback s ok = s := by
  rcases h with h | h
  · simp [reconstructCallback, h]
  · simp [reconstructCallback, h]

lemma reconstruct_guard_open (s : IRState) (ok : Bool) (f : SFrame) (rest : List SFrame)
    (hw : 30 < s.frame_count) (hq : s.sensor_data = f :: rest) :
    ¬ (s.frame_count ≤ 30 ∨ s.sensor_data.length = 0) := by
  push_neg
  exact ⟨by omega, by simp [hq]⟩

lemma reconstruct_reject (s : IRState) (ok : Bool) (d c : Img) (tf : TFS) (rest : List SFrame)
    (hw : 30 < s.frame_count) (hq : s.sensor_data = (d, c, tf) :: rest)
    (hg : ¬ gateAccepts s tf) :
    reconstructCallback s ok = { s with sensor_data := rest } := by
  rw [reconstructCallback, if_neg (reconstruct_guard_open s ok _ _ hw hq), hq]
  exact if_neg hg

lemma reconstruct_accept_deferred (s : IRState) (ok : Bool) (d c : Img) (tf : TFS)
    (rest : List SFrame)
    (hw : 30 < s.frame_count) (hq : s.sensor_data = (d, c, tf) :: rest)
    (hg : gateAccepts s tf) (hl : (s.live_integration && s.tsdf_volume.isSome) = false) :
    reconstructCallback s ok =
      { s with
        sensor_data := rest,
        prev_pose_tran := tf.1, prev_pose_rot := tf.2,
        depth_images := s.depth_images ++ [d],
        color_images := s.color_images ++ [c],
        rgb_poses := s.rgb_poses ++ [poseMat tf.2 tf.1],
        tsdf_integration_data := s.tsdf_integration_data ++ [(d, c, poseMat tf.2 tf.1)],
        processed_frame_count := s.processed_frame_count + 1 } := by
  have hg' : s.translation_distance ≤ norm3 (vsub tf.1 s.prev_pose_tran)
      ∨ s.rotational_distance ≤ absolute_distance s.prev_pose_rot tf.2 := hg
  rw [reconstructCallback, if_neg (reconstruct_guard_open s ok _ _ hw hq), hq]
  dsimp only
  rw [if_pos hg', hl]
  simp

lemma reconstruct_accept_live_ok (s : IRState) (d c : Img) (tf : TFS)
    (rest : List SFrame)
    (hw : 30 < s.frame_count) (hq : s.sensor_data = (d, c, tf) :: rest)
    (hg : gateAccepts s tf) (hl : (s.live_integration && s.tsdf_volume.isSome) = true) :
    reconstructCallback s true =
      { s with
        sensor_data := rest,
        prev_pose_tran := tf.1, prev_pose_rot := tf.2,
        depth_images := s.depth_images ++ [d],
        color_images := s.color_images ++ [c],
        rgb_poses := s.rgb_poses ++ [poseMat tf.2 tf.1],
        tsdf_volume := some ((s.tsdf_volume.getD []) ++
          [(⟨c, d, s.depth_scale, s.depth_trunc, false⟩,
            s.intrinsics, (poseMat tf.2 tf.1)⁻¹)]),
        integration_done := true,
        processed_frame_count := s.processed_frame_count + 1 } := by
  have hg' : s.translation_distance ≤ norm3 (vsub tf.1 s.prev_pose_tran)
      ∨ s.rotational_distance ≤ absolute_distance s.prev_pose_rot tf.2 := hg
  rw [reconstructCallback, if_neg (reconstruct_guard_open s true _ _ hw hq), hq]
  dsimp only
  rw [if_pos hg', hl]
  simp

lemma reconstruct_accept_live_fail (s : IRState) (d c : Img) (tf : TFS)
    (rest : List SFrame)
    (hw : 30 < s.frame_count) (hq : s.sensor_data = (d, c, tf) :: rest)
    (hg : gateAccepts s tf) (hl : (s.live_integration && s.tsdf_volume.isSome) = true) :
    reconstructCallback s false =
      { s with
        sensor_data := rest,
        prev_pose_tran := tf.1, prev_pose_rot := tf.2,
        depth_images := s.depth_images ++ [d],
        color_images := s.color_images ++ [c],
        rgb_poses := s.rgb_poses ++ [poseMat tf.2 tf.1],
        integration_done := true } := by
  have hg' : s.translation_distance ≤ norm3 (vsub tf.1 s.prev_pose_tran)
      ∨ s.rotational_distance ≤ absolute_distance s.prev_pose_rot tf.2 := hg
  rw [reconstructCallback, if_neg (reconstruct_guard_open s false _ _ hw hq), hq]
  dsimp only
  rw [if_pos hg', hl]
  simp

lemma qnorm_nonneg (q : Quat) : 0 ≤ qnorm q := Real.sqrt_nonneg _

lemma qnorm_idQuat : qnorm idQuat = 1 := by
  simp [qnorm, idQuat]

lemma qnormalise_idQuat : qnormalise idQuat = idQuat := by
  rw [qnormalise, qnorm_idQuat]
  simp [idQuat]

lemma absolute_distance_idQuat : absolute_distance idQuat idQuat = 0 := by
  rw [absolute_distance, qnormalise_idQuat]
  have h1 : qnorm (qsub idQuat idQuat) = 0 := by simp [qsub, idQuat, qnorm]
  rw [h1]
  exact min_eq_left (qnorm_nonneg _)

lemma norm3_single (a : ℝ) : norm3 ⟨a, 0, 0⟩ = |a| := by
  rw [norm3]
  simp only []
  rw [show a * a + 0 * 0 + 0 * 0 = a * a by ring, Real.sqrt_mul_self_eq_abs]

/-! ### C2 -/

/-- C2: `pauseReconstructionCallback` fails with a descriptive message and
changes no state exactly when not recording; when recording it sets
`paused := true` and then raises `TypeError` on `len(self.sensor_data > 0)`,
so no `success = true` response is ever produced (and `res.success` is also
never assigned on this path, so it would keep its `false` default). -/
theorem C2_pause_behavior (s : IRState) :
    (s.record = false →
      pauseReconstructionCallback s =
        (s, .ok ⟨false, "Cannot pause reconstruction that was never started. Doing nothing"⟩)) ∧
    (s.record = true →
      pauseReconstructionCallback s = ({ s with paused := true }, .error .typeError)) := by
  constructor <;> intro h <;> simp [pauseReconstructionCallback, h]

/-- A state in which a recording is active. -/
noncomputable def recordingState : IRState := { initState with record := true }

/-- C2 witness: both branches of `C2_pause_behavior` at concrete states. -/
theorem C2_pause_behavior_witness :
    initState.record = false ∧
    pauseReconstructionCallback initState =
      (initState, .ok ⟨false, "Cannot pause reconstruction that was never started. Doing nothing"⟩) ∧
    recordingState.record = true ∧
    pauseReconstructionCallback recordingState =
      ({ recordingState with paused := true }, .error .typeError) :=
  ⟨rfl, (C2_pause_behavior initState).1 rfl, rfl, (C2_pause_behavior recordingState).2 rfl⟩

/-! ### C5 -/

/-- A state with exactly 30 frames seen since Start and one queued frame. -/
noncomputable def warmupState : IRState :=
  { initState with frame_count := 30, sensor_data := [(0, 0, (zeroV, idQuat))] }

/-- C5 counterexample: with exactly 30 total frames seen (so "at least 30
frames seen" holds) and a non-empty queue, the consumer tick still pops
nothing and changes nothing, because the source guard is
`frame_count <= 30`. -/
theorem C5_counterexample :
    warmupState.frame_count = 30 ∧ warmupState.sensor_data ≠ [] ∧
    reconstructCallback warmupState true = warmupState := by
  exact ⟨rfl, by simp [warmupState], reconstruct_noop _ _ (Or.inl (le_refl 30))⟩

/-- C5 (amended): the tick pops nothing and changes nothing while
`frame_count ≤ 30` (i.e. until strictly more than 30 frames have been seen)
or while the queue is empty — an empty queue is a no-op, not an error; once
`frame_count > 30` and the queue is non-empty, exactly one frame is popped
per tick. -/
theorem C5_warmup_and_pop (s : IRState) (ok : Bool) :
    (s.frame_count ≤ 30 ∨ s.sensor_data = [] → reconstructCallback s ok = s) ∧
    (30 < s.frame_count → ∀ f rest, s.sensor_data = f :: rest →
      (reconstructCallback s ok).sensor_data = rest) := by
  constructor
  · exact reconstruct_noop s ok
  · intro hw f rest hq
    rcases f with ⟨d, c, tf⟩
    by_cases hg : gateAccepts s tf
    · by_cases hl : (s.live_integration && s.tsdf_volume.isSome) = true
      · cases ok
        · rw [reconstruct_accept_live_fail s d c tf rest hw hq hg hl]
        · rw [reconstruct_accept_live_ok s d c tf rest hw hq hg hl]
      · rw [reconstruct_accept_deferred s ok d c tf rest hw hq hg
          (by simpa using hl)]
    · rw [reconstruct_reject s ok d c tf rest hw hq hg]

/-- C5 witness: both parts of `C5_warmup_and_pop` at concrete states. -/
theorem C5_warmup_and_pop_witness :
    ((warmupState.frame_count ≤ 30 ∨ warmupState.sensor_data = []) ∧
      reconstructCallback warmupState true = warmupState) ∧
    (30 < ({ warmupState with frame_count := 31 } : IRState).frame_count ∧
      (reconstructCallback { warmupState with frame_count := 31 } true).sensor_data = []) :=
  ⟨⟨Or.inl (le_refl 30), (C5_warmup_and_pop warmupState true).1 (Or.inl (le_refl 30))⟩,
   ⟨by norm_num,
    (C5_warmup_and_pop { warmupState with frame_count := 31 } true).2 (by norm_num)
      (0, 0, (zeroV, idQuat)) [] rfl⟩⟩

/-! ### C3 -/

/-- C3: a popped frame is admitted (its pose is appended to `rgb_poses`,
which happens exactly on the accepted paths) iff the Euclidean translation
distance to the previous accepted translation reaches the translation
threshold OR the quaternion distance to the previous accepted rotation
reaches the rotation threshold; the comparison is inclusive (distance
exactly equal to the threshold admits), and below both thresholds the frame
is popped and dropped with no other state change. -/
theorem C3_gate_iff (s : IRState) (ok : Bool) (d c : Img) (tf : TFS) (rest : List SFrame)
    (hw : 30 < s.frame_count) (hq : s.sensor_data = (d, c, tf) :: rest) :
    ((reconstructCallback s ok).rgb_poses.length = s.rgb_poses.length + 1 ↔
      (s.translation_distance ≤ norm3 (vsub tf.1 s.prev_pose_tran) ∨
       s.rotational_distance ≤ absolute_distance s.prev_pose_rot tf.2)) ∧
    (norm3 (vsub tf.1 s.prev_pose_tran) = s.translation_distance →
      (reconstructCallback s ok).rgb_poses.length = s.rgb_poses.length + 1) ∧
    (norm3 (vsub tf.1 s.prev_pose_tran) < s.translation_distance →
      absolute_distance s.prev_pose_rot tf.2 < s.rotational_distance →
      reconstructCallback s ok = { s with sensor_data := rest }) := by
  have key : gateAccepts s tf →
      (reconstructCallback s ok).rgb_poses.length = s.rgb_poses.length + 1 := by
    intro hacc
    by_cases hl : (s.live_integration && s.tsdf_volume.isSome) = true
    · cases ok
      · rw [reconstruct_accept_live_fail s d c tf rest hw hq hacc hl]; simp
      · rw [reconstruct_accept_live_ok s d c tf rest hw hq hacc hl]; simp
    · rw [reconstruct_accept_deferred s ok d c tf rest hw hq hacc (by simpa using hl)]
      simp
  refine ⟨?_, ?_, ?_⟩
  · by_cases hg : gateAccepts s tf
    · exact iff_of_true (key hg) hg
    · rw [reconstruct_reject s ok d c tf rest hw hq hg]
      exact iff_of_false (by dsimp only; omega) hg
  · intro he
    exact key (Or.inl (le_of_eq he.symm))
  · intro h1 h2
    have hg : ¬ gateAccepts s tf := by
      intro hgate
      rcases hgate with hle | hle
      · exact absurd hle (not_le.mpr h1)
      · exact absurd hle (not_le.mpr h2)
    exact reconstruct_reject s ok d c tf rest hw hq hg

/-- A post-warm-up state with thresholds 1/2 and a queued frame whose
translation distance from the previous pose is exactly 1/2. -/
noncomputable def gateState : IRState :=
  { initState with
    frame_count := 31,
    translation_distance := 1/2,
    rotational_distance := 1/2,
    sensor_data := [(5, 7, ((⟨1/2, 0, 0⟩ : Vec3), idQuat))] }

lemma gateState_dist :
    norm3 (vsub (⟨1/2, 0, 0⟩ : Vec3) gateState.prev_pose_tran) = gateState.translation_distance := by
  have hvs : vsub (⟨1/2, 0, 0⟩ : Vec3) gateState.prev_pose_tran = ⟨1/2, 0, 0⟩ := by
    simp [gateState, initState, vsub, zeroV]
  rw [hvs, norm3_single, abs_of_pos (by norm_num : (0:ℝ) < 1/2)]
  simp [gateState, initState]

/-- C3 witness: at `gateState` the popped frame sits exactly at the
translation threshold and is admitted. -/
theorem C3_gate_iff_witness :
    30 < gateState.frame_count ∧
    gateState.sensor_data = (5, 7, ((⟨1/2, 0, 0⟩ : Vec3), idQuat)) :: [] ∧
    (reconstructCallback gateState true).rgb_poses.length = gateState.rgb_poses.length + 1 := by
  refine ⟨by norm_num [gateState], rfl, ?_⟩
  exact (C3_gate_iff gateState true 5 7 (⟨1/2, 0, 0⟩, idQuat) [] (by norm_num [gateState]) rfl).2.1
    gateState_dist

/-! ### C4 -/

/-- C4: every Start resets the previous-pose state to the identity pose
(rotation quaternion `(1,0,0,0)`, translation `(0,0,0)`), so the first
popped frame of a session is gated against the identity baseline;
afterwards the previous pose becomes the candidate pose exactly when the
frame is accepted, a rejected frame leaves it unchanged, and a tick that
pops nothing leaves it unchanged. -/
theorem C4_prev_pose (s : IRState) (r : StartReq) (ok : Bool) :
    ((startReconstructionCallback s r).prev_pose_rot = idQuat ∧
     (startReconstructionCallback s r).prev_pose_tran = zeroV) ∧
    (∀ d c tf rest, 30 < s.frame_count → s.sensor_data = (d, c, tf) :: rest →
      (gateAccepts s tf →
        (reconstructCallback s ok).prev_pose_rot = tf.2 ∧
        (reconstructCallback s ok).prev_pose_tran = tf.1) ∧
      (¬ gateAccepts s tf →
        (reconstructCallback s ok).prev_pose_rot = s.prev_pose_rot ∧
        (reconstructCallback s ok).prev_pose_tran = s.prev_pose_tran)) ∧
    (s.frame_count ≤ 30 ∨ s.sensor_data = [] →
      (reconstructCallback s ok).prev_pose_rot = s.prev_pose_rot ∧
      (reconstructCallback s ok).prev_pose_tran = s.prev_pose_tran) := by
  refine ⟨?_, ?_, ?_⟩
  · constructor <;> (rw [startReconstructionCallback]; split <;> rfl)
  · intro d c tf rest hw hq
    constructor
    · intro hg
      by_cases hl : (s.live_integration && s.tsdf_volume.isSome) = true
      · cases ok
        · rw [reconstruct_accept_live_fail s d c tf rest hw hq hg hl]; exact ⟨rfl, rfl⟩
        · rw [reconstruct_accept_live_ok s d c tf rest hw hq hg hl]; exact ⟨rfl, rfl⟩
      · rw [reconstruct_accept_deferred s ok d c tf rest hw hq hg (by simpa using hl)]
        exact ⟨rfl, rfl⟩
    · intro hg
      rw [reconstruct_reject s ok d c tf rest hw hq hg]
      exact ⟨rfl, rfl⟩
  · intro h
    rw [reconstruct_noop s ok h]
    exact ⟨rfl, rfl⟩

/-- A Start request with no crop box, zero translation threshold, deferred
mode. -/
noncomputable def startReq0 : StartReq where
  min_box := zeroV
  max_box := zeroV
  voxel_length := 1
  sdf_trunc := 1
  depth_scale := 1
  depth_trunc := 1
  convert_rgb_to_intensity := false
  tracking_frame := "camera"
  relative_frame := "world"
  translation_distance := 0
  rotational_distance := 1
  live := false

/-- C4 witness: Start puts the identity baseline in place, and at
`gateState` the accepted frame's pose becomes the new previous pose. -/
theorem C4_prev_pose_witness :
    (startReconstructionCallback initState startReq0).prev_pose_rot = idQuat ∧
    (startReconstructionCallback initState startReq0).prev_pose_tran = zeroV ∧
    (reconstructCallback gateState true).prev_pose_tran = ⟨1/2, 0, 0⟩ := by
  obtain ⟨⟨h1, h2⟩, h3, _⟩ := C4_prev_pose initState startReq0 true
  refine ⟨h1, h2, ?_⟩
  have h :=
    ((C4_prev_pose gateState startReq0 true).2.1 5 7 (⟨1/2, 0, 0⟩, idQuat) []
        (by norm_num [gateState]) rfl).1
      (Or.inl (le_of_eq gateState_dist.symm))
  exact h.2

/-! ### C7 -/

/-- Overwrite just the two session flags the producer checks. -/
def setFlags (s : IRState) (p r : Bool) : IRState := { s with paused := p, record := r }

/-- C7: while paused or not recording, an arriving synchronized frame is
dropped by `cameraCallback` with no state change at all; `frame_count`
(frames seen) can only change when recording and not paused; and the
consumer tick `reconstructCallback` is entirely independent of the
`paused`/`record` flags, so queued frames keep draining while paused. -/
theorem C7_paused_drops_producer_only (s : IRState) (m : CamMsg) (ok : Bool) :
    (s.paused = true ∨ s.record = false → cameraCallback s m = s) ∧
    ((cameraCallback s m).frame_count ≠ s.frame_count →
      s.record = true ∧ s.paused = false) ∧
    (∀ p r, reconstructCallback (setFlags s p r) ok = setFlags (reconstructCallback s ok) p r) := by
  have drop : s.paused = true ∨ s.record = false → cameraCallback s m = s := by
    intro h
    rcases h with h | h <;> simp [cameraCallback, h]
  refine ⟨drop, ?_, ?_⟩
  · intro hne
    cases hp : s.paused
    · cases hr : s.record
      · exact absurd (by rw [drop (Or.inr hr)]) hne
      · exact ⟨rfl, rfl⟩
    · exact absurd (by rw [drop (Or.inl hp)]) hne
  · intro p r
    rcases s with ⟨v1, v2, v3, v4, v5, v6, v7, v8, v9, v10, v11, v12, sd, v14, v15, v16,
      v17, v18, v19, v20, v21, v22, v23, v24, v25, v26, v27⟩
    rcases sd with _ | ⟨⟨fd, fc, ftf⟩, rest⟩ <;>
      · simp only [reconstructCallback, setFlags]
        split_ifs <;> rfl

/-- A recording-but-paused state with a queued frame. -/
noncomputable def pausedState : IRState :=
  { initState with
    record := true, paused := true,
    frame_count := 31, sensor_data := [(0, 0, (zeroV, idQuat))] }

/-- C7 witness: at `pausedState` an arriving frame is dropped without
counting, while the consumer tick still pops the queued frame. -/
theorem C7_paused_drops_producer_only_witness :
    cameraCallback pausedState ⟨0, 0, true, some (zeroV, idQuat)⟩ = pausedState ∧
    reconstructCallback (setFlags pausedState true true) true =
      setFlags (reconstructCallback pausedState true) true true := by
  refine ⟨(C7_paused_drops_producer_only pausedState _ true).1 (Or.inl rfl), ?_⟩
  exact (C7_paused_drops_producer_only pausedState ⟨0, 0, true, some (zeroV, idQuat)⟩ true).2.2
    true true

/-! ### C6 -/

/-- C6: in deferred (non-live) mode an admitted frame is appended verbatim
as its `(depth, color, pose)` triple to `tsdf_integration_data` and the
engine volume is untouched before Stop; once Stop's drain barrier holds,
the whole buffer is integrated exactly once, in FIFO order, each triple
with the inverse of its recorded pose (`integRecordOf`), and the engine
calls place every integration before the mesh extraction. -/
theorem C6_deferred (s : IRState) (ok : Bool) (r : StopReq) :
    (∀ d c tf rest, s.live_integration = false → 30 < s.frame_count →
      s.sensor_data = (d, c, tf) :: rest → gateAccepts s tf →
      (reconstructCallback s ok).tsdf_integration_data =
        s.tsdf_integration_data ++ [(d, c, poseMat tf.2 tf.1)] ∧
      (reconstructCallback s ok).tsdf_volume = s.tsdf_volume) ∧
    (∀ vol, s.integration_done = true → s.sensor_data = [] →
      s.tsdf_volume = some vol → s.live_integration = false →
      (stopFinish s r).1.tsdf_volume =
        some (vol ++ s.tsdf_integration_data.map (integRecordOf s)) ∧
      (stopFinish s r).1.tsdf_integration_data = [] ∧
      (stopFinish s r).2 =
        s.tsdf_integration_data.map (fun d => EngCall.integrate (integRecordOf s d)) ++
          [EngCall.extractMesh, EngCall.extractCloud]) := by
  constructor
  · intro d c tf rest hlive hw hq hg
    rw [reconstruct_accept_deferred s ok d c tf rest hw hq hg (by simp [hlive])]
    exact ⟨rfl, rfl⟩
  · intro vol hdone hsd hvol hlive
    rw [stopFinish, if_pos (⟨hdone, by simp [hsd]⟩ :
      s.integration_done = true ∧ s.sensor_data.length = 0), hvol]
    dsimp only
    rw [hlive]
    simp

/-- A Stop request with no normal filters modelled, `min_num_faces = 0`,
no archive directory. -/
def stopReq0 : StopReq := ⟨"/tmp/results_mesh.ply", 0, ""⟩

/-- A deferred-mode state at the drain barrier with one buffered triple. -/
noncomputable def defState : IRState :=
  { initState with
    tsdf_volume := some [],
    tsdf_integration_data := [(1, 2, poseMat idQuat zeroV)] }

/-- C6 witness: both parts of `C6_deferred` at concrete states. -/
theorem C6_deferred_witness :
    (reconstructCallback gateState true).tsdf_integration_data =
      gateState.tsdf_integration_data ++ [(5, 7, poseMat idQuat ⟨1/2, 0, 0⟩)] ∧
    (stopFinish defState stopReq0).1.tsdf_integration_data = [] ∧
    (stopFinish defState stopReq0).2 =
      defState.tsdf_integration_data.map
          (fun d => EngCall.integrate (integRecordOf defState d)) ++
        [EngCall.extractMesh, EngCall.extractCloud] := by
  refine ⟨?_, ?_, ?_⟩
  · exact ((C6_deferred gateState true stopReq0).1 5 7 (⟨1/2, 0, 0⟩, idQuat) [] rfl
      (by norm_num [gateState]) rfl (Or.inl (le_of_eq gateState_dist.symm))).1
  · exact ((C6_deferred defState true stopReq0).2 [] rfl rfl rfl rfl).2.1
  · exact ((C6_deferred defState true stopReq0).2 [] rfl rfl rfl rfl).2.2

/-! ### C8 -/

lemma not_decide_lt_eq {α : Type _} [LinearOrder α] (x c : α) :
    (!(decide (x < c))) = decide (c ≤ x) := by
  by_cases h : x < c
  · simp [h, not_le.mpr h]
  · simp [h, not_lt.mp h]

lemma keepByMask_map_pair {α β : Type _} (l : List α) (l2 : List β) (q : β → Bool) :
    keepByMask l (l2.map q) =
      ((l.zip l2).filter (fun p => !q p.2)).map Prod.fst := by
  induction l generalizing l2 with
  | nil => rfl
  | cons a l ih =>
    cases l2 with
    | nil => rfl
    | cons b l2 =>
      simp only [List.map_cons, keepByMask, List.zip_cons_cons, List.filter_cons] at *
      cases h : q b <;> simp_all [keepByMask]

lemma keepByMask_map {α : Type _} (l : List α) (q : α → Bool) :
    keepByMask l (l.map q) = l.filter (fun a => !q a) := by
  rw [keepByMask_map_pair]
  induction l with
  | nil => rfl
  | cons a l ih =>
    simp only [List.zip_cons_cons, List.filter_cons]
    cases h : q a <;> simp_all

lemma filterNormals_verts (m : OMesh) (dir : Vec3) (angle : ℝ) :
    (filterNormals m dir angle).verts = m.verts := rfl

lemma filterNormals_tris (m : OMesh) (dir : Vec3) (angle : ℝ) :
    (filterNormals m dir angle).tris =
      m.tris.filter (fun t => !decide (dot3 (triNormal m.verts t) dir < Real.cos angle)) := by
  show keepByMask m.tris
      ((m.tris.map (triNormal m.verts)).map (fun n => decide (dot3 n dir < Real.cos angle))) = _
  rw [List.map_map, keepByMask_map]
  simp [Function.comp]

lemma not_decide_le_eq {α : Type _} [LinearOrder α] (x c : α) :
    (!(decide (c ≤ x))) = decide (x < c) := by
  by_cases h : c ≤ x
  · simp [h, not_lt.mpr h]
  · simp [h, not_le.mp h]

lemma filterNormals_keep (m : OMesh) (dir : Vec3) (angle : ℝ) :
    (filterNormals m dir angle).tris =
      m.tris.filter (fun t => decide (Real.cos angle ≤ dot3 (triNormal m.verts t) dir)) := by
  rw [filterNormals_tris]
  exact List.filter_congr (fun t ht => not_decide_lt_eq _ _)

lemma filterNormals_comp (m : OMesh) (d1 d2 : Vec3) (a1 a2 : ℝ) :
    (filterNormals (filterNormals m d1 a1) d2 a2).tris =
      m.tris.filter (fun t => decide (Real.cos a1 ≤ dot3 (triNormal m.verts t) d1) &&
        decide (Real.cos a2 ≤ dot3 (triNormal m.verts t) d2)) := by
  rw [filterNormals_tris, filterNormals_verts, filterNormals_keep, List.filter_filter]
  exact List.filter_congr (fun t ht => by rw [not_decide_lt_eq, Bool.and_comm])

/-- C8: `filterNormals` keeps a triangle iff the dot product of its normal
with the filter direction is at least `cos(angle)`; composing two filters
keeps exactly the triangles failing neither filter — equivalently it removes
exactly the union of the triangles each filter would remove on the original
mesh — and (under the claim's non-overlapping-removal hypothesis, which is
not even needed) the result is independent of the order of the two filters. -/
theorem C8_normal_filter (m : OMesh) (dA dB : Vec3) (aA aB : ℝ)
    (hdisj : ∀ t ∈ m.tris,
      ¬(dot3 (triNormal m.verts t) dA < Real.cos aA ∧
        dot3 (triNormal m.verts t) dB < Real.cos aB)) :
    (∀ dir angle, (filterNormals m dir angle).tris =
      m.tris.filter (fun t => decide (Real.cos angle ≤ dot3 (triNormal m.verts t) dir))) ∧
    (filterNormals (filterNormals m dA aA) dB aB).tris =
      m.tris.filter (fun t => decide (Real.cos aA ≤ dot3 (triNormal m.verts t) dA) &&
        decide (Real.cos aB ≤ dot3 (triNormal m.verts t) dB)) ∧
    m.tris.filter (fun t => !(decide (Real.cos aA ≤ dot3 (triNormal m.verts t) dA) &&
        decide (Real.cos aB ≤ dot3 (triNormal m.verts t) dB))) =
      m.tris.filter (fun t => decide (dot3 (triNormal m.verts t) dA < Real.cos aA) ||
        decide (dot3 (triNormal m.verts t) dB < Real.cos aB)) ∧
    (filterNormals (filterNormals m dA aA) dB aB).tris =
      (filterNormals (filterNormals m dB aB) dA aA).tris := by
  refine ⟨fun dir angle => filterNormals_keep m dir angle, filterNormals_comp m dA dB aA aB,
    ?_, ?_⟩
  · exact List.filter_congr (fun t ht => by
      rw [Bool.not_and, not_decide_le_eq, not_decide_le_eq])
  · rw [filterNormals_comp, filterNormals_comp]
    exact List.filter_congr (fun t ht => Bool.and_comm _ _)

/-- A mesh with three triangles whose unit normals are (0,0,1), (0,0,-1)
and (1,0,0). -/
noncomputable def meshEx : OMesh :=
  { verts := [⟨0, 0, 0⟩, ⟨1, 0, 0⟩, ⟨0, 1, 0⟩, ⟨0, 0, 1⟩],
    tris := [(0, 1, 2), (0, 2, 1), (0, 2, 3)],
    tri_normals := [] }

lemma triNormal_ex1 : triNormal meshEx.verts (0, 1, 2) = ⟨0, 0, 1⟩ := by
  simp only [meshEx, triNormal, List.getD]
  norm_num [vsub, vcross, vnormalize, norm3, zeroV, Real.sqrt_one]

lemma triNormal_ex2 : triNormal meshEx.verts (0, 2, 1) = ⟨0, 0, -1⟩ := by
  simp only [meshEx, triNormal, List.getD]
  norm_num [vsub, vcross, vnormalize, norm3, zeroV, Real.sqrt_one]

lemma triNormal_ex3 : triNormal meshEx.verts (0, 2, 3) = ⟨1, 0, 0⟩ := by
  simp only [meshEx, triNormal, List.getD]
  norm_num [vsub, vcross, vnormalize, norm3, zeroV, Real.sqrt_one]

/-- C8 witness: on `meshEx` the filters `((0,0,1), π/2)` and
`((0,0,-1), π/2)` have disjoint removal sets, and their composition keeps
exactly the triangle with normal `(1,0,0)`. -/
theorem C8_normal_filter_witness :
    (∀ t ∈ meshEx.tris,
      ¬(dot3 (triNormal meshEx.verts t) ⟨0, 0, 1⟩ < Real.cos (Real.pi/2) ∧
        dot3 (triNormal meshEx.verts t) ⟨0, 0, -1⟩ < Real.cos (Real.pi/2))) ∧
    (filterNormals (filterNormals meshEx ⟨0, 0, 1⟩ (Real.pi/2)) ⟨0, 0, -1⟩ (Real.pi/2)).tris =
      [(0, 2, 3)] := by
  have hd : ∀ t ∈ meshEx.tris,
      ¬(dot3 (triNormal meshEx.verts t) ⟨0, 0, 1⟩ < Real.cos (Real.pi/2) ∧
        dot3 (triNormal meshEx.verts t) ⟨0, 0, -1⟩ < Real.cos (Real.pi/2)) := by
    intro t ht
    have ht' : t = (0, 1, 2) ∨ t = (0, 2, 1) ∨ t = (0, 2, 3) := by
      simpa [meshEx] using ht
    rcases ht' with h | h | h <;> subst h
    · rw [triNormal_ex1]; norm_num [dot3, Real.cos_pi_div_two]
    · rw [triNormal_ex2]; norm_num [dot3, Real.cos_pi_div_two]
    · rw [triNormal_ex3]; norm_num [dot3, Real.cos_pi_div_two]
  refine ⟨hd, ?_⟩
  rw [(C8_normal_filter meshEx ⟨0, 0, 1⟩ ⟨0, 0, -1⟩ (Real.pi/2) (Real.pi/2) hd).2.1]
  show List.filter _ meshEx.tris = _
  rw [show meshEx.tris = [(0, 1, 2), (0, 2, 1), (0, 2, 3)] from rfl]
  simp only [List.filter_cons, List.filter_nil]
  rw [triNormal_ex1, triNormal_ex2, triNormal_ex3, Real.cos_pi_div_two]
  norm_num [dot3]

/-! ### C9 -/

/-- The 5/50 example mesh: a 5-triangle cluster on vertices {0,1,2} and a
50-triangle cluster on vertices {3,4,5}. -/
noncomputable def mesh9 : OMesh :=
  { verts := [⟨0, 0, 0⟩, ⟨1, 0, 0⟩, ⟨0, 1, 0⟩, ⟨0, 0, 1⟩, ⟨1, 1, 0⟩, ⟨1, 0, 1⟩],
    tris := List.replicate 5 (0, 1, 2) ++ List.replicate 50 (3, 4, 5),
    tri_normals := [] }

/-- The engine's cluster assignment for `mesh9`. -/
def labels9 : List ℕ := List.replicate 5 0 ++ List.replicate 50 1

/-- C9: the connected-component filter keeps exactly the triangles whose
cluster has at least `min_num_faces` triangles (strictly smaller clusters
are removed, clusters exactly at the bound are kept), then drops exactly
the vertices no surviving triangle references; on a mesh with a 5-triangle
cluster and a 50-triangle cluster and `min_num_faces = 10`, only the
50-triangle cluster and its three vertices remain. -/
theorem C9_cluster_filter (m : OMesh) (labels : List ℕ) (f : ℕ) :
    (remove_triangles_by_mask m (cluster_mask labels f)).tris =
      ((m.tris.zip labels).filter (fun p => decide (f ≤ countL labels p.2))).map Prod.fst ∧
    (cluster_filter_step m labels f).verts =
      ((m.verts.enum).filter
        (fun p => referenced (keepByMask m.tris (cluster_mask labels f)) p.1)).map Prod.snd ∧
    (cluster_filter_step mesh9 labels9 10).tris = List.replicate 50 (0, 1, 2) ∧
    (cluster_filter_step mesh9 labels9 10).verts = [⟨0, 0, 1⟩, ⟨1, 1, 0⟩, ⟨1, 0, 1⟩] := by
  refine ⟨?_, rfl, ?_, ?_⟩
  · show keepByMask m.tris (labels.map _) = _
    rw [keepByMask_map_pair]
    exact congrArg (List.map Prod.fst)
      (List.filter_congr (fun p hp => not_decide_lt_eq _ _))
  · rfl
  · rfl

/-! ### C10 -/

/-- Events deliverable while `stopReconstructionCallback` is blocked in its
drain-wait loop: the image subscriptions and the reconstruction timer run in
their own callback groups, while all four service callbacks share one
`MutuallyExclusiveCallbackGroup` with the executing Stop and therefore
cannot run until it returns. -/
def duringStopWait : Ev → Bool
  | .camera _ => true
  | .reconstruct _ => true
  | .cameraInfo _ => true
  | _ => false

/-- The exit condition of Stop's drain-wait poll loop,
`self.integration_done and len(self.sensor_data) == 0`. -/
def drainBarrier (s : IRState) : Prop :=
  s.integration_done = true ∧ s.sensor_data = []

lemma stopWait_preserved (s : IRState) (e : Ev)
    (hrec : s.record = false) (hq : s.sensor_data ≠ []) (hw : s.frame_count ≤ 30)
    (he : duringStopWait e = true) :
    (step s e).record = false ∧ (step s e).sensor_data ≠ [] ∧
      (step s e).frame_count ≤ 30 := by
  cases e with
  | camera m =>
    have hcam : step s (Ev.camera m) = s := by simp [step, cameraCallback, hrec]
    rw [hcam]
    exact ⟨hrec, hq, hw⟩
  | reconstruct ok =>
    have hrc : step s (Ev.reconstruct ok) = s := reconstruct_noop s ok (Or.inl hw)
    rw [hrc]
    exact ⟨hrec, hq, hw⟩
  | cameraInfo i => exact ⟨hrec, hq, hw⟩
  | start r => exact absurd he (by simp [duringStopWait])
  | pause => exact absurd he (by simp [duringStopWait])
  | resume => exact absurd he (by simp [duringStopWait])
  | stopBegin => exact absurd he (by simp [duringStopWait])
  | stopFinish r => exact absurd he (by simp [duringStopWait])

lemma stopWait_run (evs : List Ev) :
    ∀ s : IRState, (∀ e ∈ evs, duringStopWait e = true) →
    s.record = false → s.sensor_data ≠ [] → s.frame_count ≤ 30 →
    (run s evs).record = false ∧ (run s evs).sensor_data ≠ [] ∧
      (run s evs).frame_count ≤ 30 := by
  induction evs with
  | nil => exact fun s _ h1 h2 h3 => ⟨h1, h2, h3⟩
  | cons e evs ih =>
    intro s hall h1 h2 h3
    have hstep := stopWait_preserved s e h1 h2 h3 (hall e (List.mem_cons_self e evs))
    exact ih (step s e) (fun x hx => hall x (List.mem_cons_of_mem e hx))
      hstep.1 hstep.2.1 hstep.2.2

/-- C10: once Stop has set `record := false`, if the capture queue is
non-empty and at most 30 frames have been seen, then every event that can
be delivered during the drain wait preserves all three facts, so the drain
barrier is false after every such event sequence and Stop's wait loop never
exits. -/
theorem C10_stop_wedges (s : IRState)
    (hrec : s.record = false) (hq : s.sensor_data ≠ []) (hw : s.frame_count ≤ 30) :
    (∀ e, duringStopWait e = true →
      (step s e).record = false ∧ (step s e).sensor_data ≠ [] ∧
        (step s e).frame_count ≤ 30) ∧
    (∀ evs, (∀ e ∈ evs, duringStopWait e = true) → ¬ drainBarrier (run s evs)) := by
  refine ⟨fun e he => stopWait_preserved s e hrec hq hw he, fun evs hall hbar => ?_⟩
  exact (stopWait_run evs s hall hrec hq hw).2.1 hbar.2

/-- A stopped state with one stuck queued frame and 30 frames seen. -/
noncomputable def wedgedState : IRState :=
  { initState with frame_count := 30, sensor_data := [(0, 0, (zeroV, idQuat))] }

/-- C10 witness: at `wedgedState` the barrier stays false under a consumer
tick followed by an arriving camera frame. -/
theorem C10_stop_wedges_witness :
    wedgedState.record = false ∧ wedgedState.sensor_data ≠ [] ∧
    wedgedState.frame_count ≤ 30 ∧
    ¬ drainBarrier (run wedgedState [Ev.reconstruct true, Ev.camera ⟨0, 0, true, none⟩]) := by
  have h2 : wedgedState.sensor_data ≠ [] := by simp [wedgedState]
  refine ⟨rfl, h2, le_refl 30, ?_⟩
  exact (C10_stop_wedges wedgedState rfl h2 (le_refl 30)).2
    [Ev.reconstruct true, Ev.camera ⟨0, 0, true, none⟩]
    (by
      intro e he
      have he' : e = Ev.reconstruct true ∨ e = Ev.camera ⟨0, 0, true, none⟩ := by
        simpa using he
      rcases he' with h | h <;> subst h <;> rfl)

/-! ### C1 -/

/-- Number of frames the engine has integrated. -/
def volLen (s : IRState) : ℕ := (s.tsdf_volume.getD []).length

/-- The session accounting invariant: once some Start has been performed,
the TSDF volume exists, engine integrations plus still-buffered triples
account exactly for the admitted frames, live mode never buffers, and
`reconstructed_frame_count` is never incremented. -/
def InvC1 (s : IRState) : Prop :=
  s.started = true →
    s.tsdf_volume.isSome = true ∧
    volLen s + s.tsdf_integration_data.length = s.processed_frame_count ∧
    (s.live_integration = true → s.tsdf_integration_data = []) ∧
    s.reconstructed_frame_count = 0

lemma invC1_init : InvC1 initState := by
  intro h
  exact absurd h (by simp [initState])

lemma invC1_camera (s : IRState) (m : CamMsg) (h : InvC1 s) :
    InvC1 (cameraCallback s m) := by
  unfold cameraCallback
  split
  · exact h
  · split
    · exact h
    · cases htf : m.tf with
      | none => exact h
      | some tf =>
        intro hst
        exact h hst
  

lemma invC1_start (s : IRState) (r : StartReq) :
    InvC1 (startReconstructionCallback s r) := by
  unfold startReconstructionCallback
  split <;> exact fun _ => ⟨rfl, by simp [volLen], fun _ => rfl, rfl⟩

lemma invC1_reconstruct (s : IRState) (ok : Bool) (h : InvC1 s) :
    InvC1 (reconstructCallback s ok) := by
  by_cases hng : s.frame_count ≤ 30 ∨ s.sensor_data = []
  · rw [reconstruct_noop s ok hng]; exact h
  push_neg at hng
  rcases hsd : s.sensor_data with _ | ⟨⟨d, c, tf⟩, rest⟩
  · exact absurd hsd hng.2
  have hw : 30 < s.frame_count := hng.1
  by_cases hg : gateAccepts s tf
  · by_cases hl : (s.live_integration && s.tsdf_volume.isSome) = true
    · cases ok
      · rw [reconstruct_accept_live_fail s d c tf rest hw hsd hg hl]
        intro hst
        exact h hst
      · rw [reconstruct_accept_live_ok s d c tf rest hw hsd hg hl]
        intro hst
        obtain ⟨h1, h2, h3, h4⟩ := h hst
        refine ⟨rfl, ?_, h3, h4⟩
        show (s.tsdf_volume.getD [] ++ [_]).length + s.tsdf_integration_data.length =
          s.processed_frame_count + 1
        rw [List.length_append, List.length_singleton]
        unfold volLen at h2
        omega
    · rw [reconstruct_accept_deferred s ok d c tf rest hw hsd hg (by simpa using hl)]
      intro hst
      obtain ⟨h1, h2, h3, h4⟩ := h hst
      refine ⟨h1, ?_, ?_, h4⟩
      · show volLen s + (s.tsdf_integration_data ++ [_]).length =
          s.processed_frame_count + 1
        rw [List.length_append, List.length_singleton]
        omega
      · intro hlive
        rw [hlive, h1] at hl
        exact absurd rfl hl
  · rw [reconstruct_reject s ok d c tf rest hw hsd hg]
    intro hst
    exact h hst

lemma invC1_stopFinish (s : IRState) (r : StopReq) (h : InvC1 s) :
    InvC1 (stopFinish s r).1 := by
  rw [stopFinish]
  split
  · rcases hvol : s.tsdf_volume with _ | vol
    · exact h
    · by_cases hlive : s.live_integration = true
      · dsimp only
        rw [if_pos hlive]
        exact h
      · dsimp only
        rw [if_neg hlive]
        intro hst
        obtain ⟨h1, h2, h3, h4⟩ := h hst
        refine ⟨rfl, ?_, fun hl => absurd hl hlive, h4⟩
        show (vol ++ s.tsdf_integration_data.map (integRecordOf s)).length + ([] : List (Img × Img × Mat4)).length = s.processed_frame_count
        rw [List.length_append, List.length_map, List.length_nil]
        have hv : volLen s = vol.length := by simp [volLen, hvol]
        omega
  · exact h

lemma invC1_step (s : IRState) (e : Ev) (h : InvC1 s) : InvC1 (step s e) := by
  cases e with
  | camera m => exact invC1_camera s m h
  | reconstruct ok => exact invC1_reconstruct s ok h
  | start r => exact invC1_start s r
  | pause =>
    show InvC1 (pauseReconstructionCallback s).1
    unfold pauseReconstructionCallback
    split
    · exact h
    · exact fun hst => h hst
  | resume =>
    show InvC1 (resumeReconstructionCallback s).1
    unfold resumeReconstructionCallback
    split
    · exact h
    · exact fun hst => h hst
  | stopBegin => exact fun hst => h hst
  | stopFinish r => exact invC1_stopFinish s r h
  | cameraInfo i =>
    intro hst
    obtain ⟨h1, h2, h3, h4⟩ := h hst
    exact ⟨h1, h2, h3, h4⟩

lemma invC1_run (evs : List Ev) : ∀ s : IRState, InvC1 s → InvC1 (run s evs) := by
  induction evs with
  | nil => exact fun s h => h
  | cons e evs ih => exact fun s h => ih (step s e) (invC1_step s e h)

/-- C1 (amended): in every reachable state with at least one Start
performed, once Stop's drain barrier holds and `stopFinish` runs, the
capture queue and the deferred buffer are both empty and the number of
frames actually integrated into the engine equals the frames-admitted
counter; the `reconstructed_frame_count` variable, however, is never
incremented by the code and is still `0` when Stop returns. -/
theorem C1_stop_drains (evs : List Ev) (r : StopReq)
    (hstart : (run initState evs).started = true)
    (hbar : (run initState evs).integration_done = true ∧
      (run initState evs).sensor_data = []) :
    (stopFinish (run initState evs) r).1.sensor_data = [] ∧
    (stopFinish (run initState evs) r).1.tsdf_integration_data = [] ∧
    (stopFinish (run initState evs) r).1.reconstructed_frame_count = 0 ∧
    volLen (stopFinish (run initState evs) r).1 =
      (stopFinish (run initState evs) r).1.processed_frame_count := by
  set s := run initState evs with hs
  obtain ⟨h1, h2, h3, h4⟩ := invC1_run evs initState invC1_init hstart
  rw [← hs] at h1 h2 h3 h4
  rcases hvol : s.tsdf_volume with _ | vol
  · rw [hvol] at h1
    exact absurd h1 (by simp)
  rw [stopFinish, if_pos ⟨hbar.1, by simp [hbar.2]⟩, hvol]
  dsimp only
  by_cases hlive : s.live_integration = true
  · rw [if_pos hlive]
    have hbuf : s.tsdf_integration_data = [] := h3 hlive
    refine ⟨hbar.2, hbuf, h4, ?_⟩
    rw [hbuf] at h2
    simpa using h2
  · rw [if_neg hlive]
    refine ⟨hbar.2, rfl, h4, ?_⟩
    show (vol ++ s.tsdf_integration_data.map (integRecordOf s)).length =
      s.processed_frame_count
    rw [List.length_append, List.length_map]
    have hv : volLen s = vol.length := by simp [volLen, hvol]
    omega

/-- C1 witness: the trace consisting of a single Start satisfies the
hypotheses of `C1_stop_drains`, and Stop then returns with both queues
empty. -/
theorem C1_stop_drains_witness :
    (run initState [Ev.start startReq0]).started = true ∧
    (run initState [Ev.start startReq0]).integration_done = true ∧
    (run initState [Ev.start startReq0]).sensor_data = [] ∧
    (stopFinish (run initState [Ev.start startReq0]) stopReq0).1.sensor_data = [] ∧
    (stopFinish (run initState [Ev.start startReq0]) stopReq0).1.tsdf_integration_data = [] := by
  have hstart : (run initState [Ev.start startReq0]).started = true := by
    show (startReconstructionCallback initState startReq0).started = true
    unfold startReconstructionCallback
    split <;> rfl
  have hdone : (run initState [Ev.start startReq0]).integration_done = true := by
    show (startReconstructionCallback initState startReq0).integration_done = true
    unfold startReconstructionCallback
    split <;> rfl
  have hsd : (run initState [Ev.start startReq0]).sensor_data = [] := by
    show (startReconstructionCallback initState startReq0).sensor_data = []
    unfold startReconstructionCallback
    split <;> rfl
  have hmain := C1_stop_drains [Ev.start startReq0] stopReq0 hstart ⟨hdone, hsd⟩
  exact ⟨hstart, hdone, hsd, hmain.1, hmain.2.1⟩

lemma start_fields (s : IRState) (r : StartReq) :
    (startReconstructionCallback s r).started = true ∧
    (startReconstructionCallback s r).integration_done = s.integration_done ∧
    (startReconstructionCallback s r).sensor_data = [] ∧
    (startReconstructionCallback s r).record = true ∧
    (startReconstructionCallback s r).paused = false ∧
    (startReconstructionCallback s r).frame_count = 0 ∧
    (startReconstructionCallback s r).processed_frame_count = 0 ∧
    (startReconstructionCallback s r).reconstructed_frame_count = 0 ∧
    (startReconstructionCallback s r).live_integration = r.live ∧
    (startReconstructionCallback s r).translation_distance = r.translation_distance ∧
    (startReconstructionCallback s r).tsdf_volume = some [] ∧
    (startReconstructionCallback s r).tsdf_integration_data = [] := by
  unfold startReconstructionCallback
  split <;> exact ⟨rfl, rfl, rfl, rfl, rfl, rfl, rfl, rfl, rfl, rfl, rfl, rfl⟩

/-- The camera message used by the counterexample trace: decodes fine and
has the identity pose. -/
def camMsg0 : CamMsg := ⟨0, 0, true, some (zeroV, idQuat)⟩

/-- The corresponding queued frame. -/
def frame0 : SFrame := (0, 0, (zeroV, idQuat))

lemma camera_replicate (n : ℕ) :
    ∀ s : IRState, s.record = true → s.paused = false →
    run s (List.replicate n (Ev.camera camMsg0)) =
      { s with sensor_data := s.sensor_data ++ List.replicate n frame0,
               frame_count := s.frame_count + n } := by
  induction n with
  | zero =>
    intro s h1 h2
    show s = _
    ext <;> simp
  | succ n ih =>
    intro s h1 h2
    have hstep : step s (Ev.camera camMsg0) =
        { s with sensor_data := s.sensor_data ++ [frame0],
                 frame_count := s.frame_count + 1 } := by
      show cameraCallback s camMsg0 = _
      simp [cameraCallback, h1, h2, camMsg0, frame0]
    have hrun : run s (List.replicate (n + 1) (Ev.camera camMsg0)) =
        run (step s (Ev.camera camMsg0)) (List.replicate n (Ev.camera camMsg0)) := by
      rw [List.replicate_succ]
      rfl
    have hrec : (step s (Ev.camera camMsg0)).record = true := by rw [hstep]; exact h1
    have hpau : (step s (Ev.camera camMsg0)).paused = false := by rw [hstep]; exact h2
    rw [hrun, ih (step s (Ev.camera camMsg0)) hrec hpau, hstep]
    ext <;> (try simp [List.replicate_succ, List.append_assoc]) <;> (try omega)

lemma reconstruct_replicate (k : ℕ) :
    ∀ s : IRState, 30 < s.frame_count → s.translation_distance ≤ 0 →
      s.live_integration = false → s.sensor_data = List.replicate k frame0 →
    (run s (List.replicate k (Ev.reconstruct true))).sensor_data = [] ∧
    (run s (List.replicate k (Ev.reconstruct true))).processed_frame_count =
      s.processed_frame_count + k ∧
    (run s (List.replicate k (Ev.reconstruct true))).reconstructed_frame_count =
      s.reconstructed_frame_count ∧
    (run s (List.replicate k (Ev.reconstruct true))).integration_done =
      s.integration_done ∧
    (run s (List.replicate k (Ev.reconstruct true))).started = s.started ∧
    (run s (List.replicate k (Ev.reconstruct true))).tsdf_volume = s.tsdf_volume := by
  induction k with
  | zero =>
    intro s h1 h2 h3 h4
    exact ⟨h4, rfl, rfl, rfl, rfl, rfl⟩
  | succ k ih =>
    intro s h1 h2 h3 h4
    have hq : s.sensor_data = (0, 0, (zeroV, idQuat)) :: List.replicate k frame0 := by
      rw [h4, List.replicate_succ]
      rfl
    have hg : gateAccepts s (zeroV, idQuat) :=
      Or.inl (le_trans h2 (norm3_nonneg _))
    have hl : (s.live_integration && s.tsdf_volume.isSome) = false := by
      rw [h3]
      rfl
    have hstep := reconstruct_accept_deferred s true 0 0 (zeroV, idQuat)
      (List.replicate k frame0) h1 hq hg hl
    have hrun : run s (List.replicate (k + 1) (Ev.reconstruct true)) =
        run (reconstructCallback s true) (List.replicate k (Ev.reconstruct true)) := by
      rw [List.replicate_succ]
      rfl
    have p1 : (reconstructCallback s true).frame_count = s.frame_count := by rw [hstep]
    have p2 : (reconstructCallback s true).translation_distance = s.translation_distance := by
      rw [hstep]
    have p3 : (reconstructCallback s true).live_integration = s.live_integration := by
      rw [hstep]
    have p4 : (reconstructCallback s true).sensor_data = List.replicate k frame0 := by
      rw [hstep]
    have p5 : (reconstructCallback s true).processed_frame_count =
        s.processed_frame_count + 1 := by rw [hstep]
    have p6 : (reconstructCallback s true).reconstructed_frame_count =
        s.reconstructed_frame_count := by rw [hstep]
    have p7 : (reconstructCallback s true).integration_done = s.integration_done := by
      rw [hstep]
    have p8 : (reconstructCallback s true).started = s.started := by rw [hstep]
    have p9 : (reconstructCallback s true).tsdf_volume = s.tsdf_volume := by rw [hstep]
    obtain ⟨c1, c2, c3, c4, c5, c6⟩ := ih (reconstructCallback s true)
      (p1 ▸ h1) (p2 ▸ h2) (p3.trans h3) p4
    rw [hrun]
    refine ⟨c1, ?_, ?_, ?_, ?_, ?_⟩
    · rw [c2, p5]
      omega
    · rw [c3, p6]
    · rw [c4, p7]
    · rw [c5, p8]
    · rw [c6, p9]

lemma stopFinish_counts (s : IRState) (r : StopReq) :
    (stopFinish s r).1.reconstructed_frame_count = s.reconstructed_frame_count ∧
    (stopFinish s r).1.processed_frame_count = s.processed_frame_count := by
  rw [stopFinish]
  split
  · rcases hvol : s.tsdf_volume with _ | vol
    · exact ⟨rfl, rfl⟩
    · dsimp only
      split
      · exact ⟨rfl, rfl⟩
      · exact ⟨rfl, rfl⟩
  · exact ⟨rfl, rfl⟩

lemma stopFinish_started (s : IRState) (r : StopReq) :
    (stopFinish s r).1.started = s.started := by
  rw [stopFinish]
  split
  · rcases hvol : s.tsdf_volume with _ | vol
    · rfl
    · dsimp only
      split
      · rfl
      · rfl
  · rfl

lemma run_cons (s : IRState) (e : Ev) (l : List Ev) : run s (e :: l) = run (step s e) l := rfl

lemma run_single (s : IRState) (e : Ev) : run s [e] = step s e := rfl

lemma run_append (s : IRState) (l1 l2 : List Ev) :
    run s (l1 ++ l2) = run (run s l1) l2 := by
  unfold run
  rw [List.foldl_append]

lemma step_start (s : IRState) (r : StartReq) :
    step s (Ev.start r) = startReconstructionCallback s r := rfl

lemma step_stopFinish (s : IRState) (r : StopReq) :
    step s (Ev.stopFinish r) = (stopFinish s r).1 := rfl

lemma stopBegin_started (s : IRState) : (step s Ev.stopBegin).started = s.started := rfl

lemma stopBegin_int (s : IRState) :
    (step s Ev.stopBegin).integration_done = s.integration_done := rfl

lemma stopBegin_sd (s : IRState) : (step s Ev.stopBegin).sensor_data = s.sensor_data := rfl

lemma stopBegin_rfc (s : IRState) :
    (step s Ev.stopBegin).reconstructed_frame_count = s.reconstructed_frame_count := rfl

lemma stopBegin_proc (s : IRState) :
    (step s Ev.stopBegin).processed_frame_count = s.processed_frame_count := rfl

/-- The counterexample trace: Start in deferred mode with zero translation
threshold, 31 identical frames, 31 consumer ticks (which pop and admit all
31 frames), then Stop, whose drain barrier holds at once. -/
noncomputable def cexTrace : List Ev :=
  Ev.start startReq0 :: (List.replicate 31 (Ev.camera camMsg0) ++
    (List.replicate 31 (Ev.reconstruct true) ++ [Ev.stopBegin]))

/-- C1 counterexample: on this session the drain barrier holds when Stop
polls it, so Stop returns, both queues are empty — and yet
`reconstructed_frame_count = 0` while `processed_frame_count = 31`, so the
claimed counter equality is false. -/
theorem C1_counterexample :
    (run initState (cexTrace ++ [Ev.stopFinish stopReq0])).started = true ∧
    (run initState cexTrace).integration_done = true ∧
    (run initState cexTrace).sensor_data = [] ∧
    (run initState (cexTrace ++ [Ev.stopFinish stopReq0])).reconstructed_frame_count = 0 ∧
    (run initState (cexTrace ++ [Ev.stopFinish stopReq0])).processed_frame_count = 31 ∧
    ¬ ((run initState (cexTrace ++ [Ev.stopFinish stopReq0])).reconstructed_frame_count =
       (run initState (cexTrace ++ [Ev.stopFinish stopReq0])).processed_frame_count) := by
  have h0 : run initState cexTrace =
      run (run (run (startReconstructionCallback initState startReq0)
        (List.replicate 31 (Ev.camera camMsg0)))
        (List.replicate 31 (Ev.reconstruct true))) [Ev.stopBegin] := by
    unfold cexTrace
    rw [run_cons, step_start, run_append, run_append]
  have hfull : run initState (cexTrace ++ [Ev.stopFinish stopReq0]) =
      (stopFinish (run initState cexTrace) stopReq0).1 := by
    rw [run_append, run_single, step_stopFinish]
  obtain ⟨f1, f2, f3, f4, f5, f6, f7, f8, f9, f10, f11, f12⟩ :=
    start_fields initState startReq0
  set s1 := startReconstructionCallback initState startReq0 with hs1
  have hcam := camera_replicate 31 s1 f4 f5
  set s2 := run s1 (List.replicate 31 (Ev.camera camMsg0)) with hs2
  have g_fc : s2.frame_count = 31 := by
    rw [hcam]
    dsimp only
    rw [f6]
  have g_tau : s2.translation_distance ≤ 0 := by
    rw [hcam]
    dsimp only
    rw [f10]
    norm_num [startReq0]
  have g_live : s2.live_integration = false := by
    rw [hcam]
    dsimp only
    rw [f9]
    rfl
  have g_sd : s2.sensor_data = List.replicate 31 frame0 := by
    rw [hcam]
    dsimp only
    rw [f3, List.nil_append]
  have g_proc : s2.processed_frame_count = 0 := by
    rw [hcam]
    dsimp only
    rw [f7]
  have g_rfc : s2.reconstructed_frame_count = 0 := by
    rw [hcam]
    dsimp only
    rw [f8]
  have g_int : s2.integration_done = true := by
    rw [hcam]
    dsimp only
    rw [f2]
    rfl
  have g_started : s2.started = true := by
    rw [hcam]
    dsimp only
    rw [f1]
  obtain ⟨c1, c2, c3, c4, c5, c6⟩ := reconstruct_replicate 31 s2
    (by rw [g_fc]; norm_num) g_tau g_live g_sd
  set s3 := run s2 (List.replicate 31 (Ev.reconstruct true)) with hs3
  have hA : (run initState (cexTrace ++ [Ev.stopFinish stopReq0])).started = true := by
    rw [hfull, stopFinish_started, h0, run_single, stopBegin_started, c5, g_started]
  have hB : (run initState cexTrace).integration_done = true := by
    rw [h0, run_single, stopBegin_int, c4, g_int]
  have hC : (run initState cexTrace).sensor_data = [] := by
    rw [h0, run_single, stopBegin_sd]
    exact c1
  have hD : (run initState (cexTrace ++ [Ev.stopFinish stopReq0])).reconstructed_frame_count
      = 0 := by
    rw [hfull, (stopFinish_counts _ _).1, h0, run_single, stopBegin_rfc, c3, g_rfc]
  have hE : (run initState (cexTrace ++ [Ev.stopFinish stopReq0])).processed_frame_count
      = 31 := by
    rw [hfull, (stopFinish_counts _ _).2, h0, run_single, stopBegin_proc, c2, g_proc]
  exact ⟨hA, hB, hC, hD, hE, by rw [hD, hE]; norm_num⟩
